import Mathlib

/-!
Verification of the todo-app household web application (notice board +
shopping list) against its natural-language specification.

The embedding models:
- the SQLite tables `notices` and `shopping_list` created by
  `data/database.js` (rows kept in insertion order, `AUTOINCREMENT`
  modelled by a `nextId` counter);
- the repository layer: the final-revision `ShoppingRepository`
  (`getAll` / `create` / `delete` / `toggleCheck`, each wrapping its
  statement in try/catch and rethrowing a sanitized message) and the
  earlier revision whose `create` validates `quantity > 0` itself;
- `NoticeRepository.getAll` (`ORDER BY id DESC`);
- the `POST /shopping-list/add` route handler with its
  express-validator chains (`trim`, `escape`, `notEmpty`,
  `isInt (min 1)`);
- the database-initialization block of `data/database.js` (try/catch
  around directory creation, opening the store and executing the
  schema, `process.exit(1)` on failure).

Fallible JavaScript code is modelled with `Except String`, the thrown
`Error` message standing for the thrown error.  A `dbFails : Bool`
parameter abstracts whether the underlying prepared-statement execution
throws (the repository catches exactly that and rethrows its sanitized
message).
-/

/-- A row of the `shopping_list` table:
`id INTEGER PRIMARY KEY AUTOINCREMENT, item TEXT, quantity TEXT,
store TEXT, checked BOOLEAN DEFAULT 0, created_at TEXT`.
SQLite stores the `checked` "boolean" as an integer, updated by the SQL
expression `checked = 1 - checked`, hence `checked : Int`. -/
structure ShoppingRow where
  id : Nat
  item : String
  quantity : String
  store : String
  checked : Int
  created_at : String
deriving Repr, DecidableEq

/-- A row of the `notices` table:
`id INTEGER PRIMARY KEY AUTOINCREMENT, name TEXT, message TEXT,
created_at TEXT`. -/
structure NoticeRow where
  id : Nat
  name : String
  message : String
  created_at : String
deriving Repr, DecidableEq

/-- The `shopping_list` table: rows in insertion (rowid) order, plus the
next id `AUTOINCREMENT` will assign. -/
structure ShoppingTable where
  rows : List ShoppingRow
  nextId : Nat
deriving Repr, DecidableEq

/-- The `notices` table. -/
structure NoticeTable where
  rows : List NoticeRow
  nextId : Nat
deriving Repr, DecidableEq

/-- The comparator of `ORDER BY <key> DESC`: `a` may come before `b`
when the key of `b` is at most the key of `a`. -/
def keyGe {α : Type} (key : α → Nat) (a b : α) : Prop :=
  key b ≤ key a

instance {α : Type} (key : α → Nat) : DecidableRel (keyGe key) :=
  fun a b => Nat.decLe (key b) (key a)

instance {α : Type} (key : α → Nat) : IsTotal α (keyGe key) :=
  ⟨fun a b => Nat.le_total (key b) (key a)⟩

instance {α : Type} (key : α → Nat) : IsTrans α (keyGe key) :=
  ⟨fun _ _ _ h1 h2 => Nat.le_trans h2 h1⟩

/-- Embedding of `ORDER BY <key> DESC` over a bag of rows, as a sort. -/
def sortDescBy {α : Type} (key : α → Nat) (l : List α) : List α :=
  List.insertionSort (keyGe key) l

/-- Message thrown by the final-revision `ShoppingRepository.getAll`
when the query fails. -/
def getAllFailMsg : String := "Failed to retrieve shopping list from database"

/-- Message thrown by `ShoppingRepository.create` when the insert
fails. -/
def persistenceMsg : String := "Failed to create shopping item in database"

/-- Message thrown by `ShoppingRepository.delete` when the delete
fails. -/
def deleteFailMsg : String := "Failed to delete shopping item from database"

/-- Message thrown by `ShoppingRepository.toggleCheck` when the update
fails. -/
def toggleFailMsg : String := "Failed to toggle shopping item in database"

/-- Message thrown by the validating-revision `create` when
`quantity > 0` fails. -/
def validationMsg : String := "Error: Quantity must be greater than 0"

/-- The row inserted by
`INSERT INTO shopping_list (item, quantity, store, checked) VALUES (?, ?, ?, 0)`:
`id` assigned by `AUTOINCREMENT`, `checked` literal `0`, `created_at`
filled by the column default, the current local datetime (passed here
as `now`). -/
def ShoppingRepository.createdRow (s : ShoppingTable)
    (item quantity store now : String) : ShoppingRow :=
  { id := s.nextId, item := item, quantity := quantity, store := store,
    checked := 0, created_at := now }

/-- State effect of the insert statement: append the new row, advance
the autoincrement counter. -/
def ShoppingRepository.createState (s : ShoppingTable)
    (item quantity store now : String) : ShoppingTable :=
  { rows := s.rows ++ [ShoppingRepository.createdRow s item quantity store now],
    nextId := s.nextId + 1 }

/-- State effect of `DELETE FROM shopping_list WHERE id = ?`: keep
exactly the rows whose id differs. -/
def ShoppingRepository.deleteState (s : ShoppingTable) (id : Nat) : ShoppingTable :=
  { s with rows := s.rows.filter (fun r => r.id != id) }

/-- Effect of `UPDATE shopping_list SET checked = 1 - checked WHERE id = ?`
on a single row: flipped when the id matches, untouched otherwise. -/
def toggleRow (id : Nat) (r : ShoppingRow) : ShoppingRow :=
  if r.id = id then { r with checked := 1 - r.checked } else r

/-- State effect of
`UPDATE shopping_list SET checked = 1 - checked WHERE id = ?`. -/
def ShoppingRepository.toggleCheckState (s : ShoppingTable) (id : Nat) : ShoppingTable :=
  { s with rows := s.rows.map (toggleRow id) }

/-- Final-revision `ShoppingRepository.getAll`:
`SELECT * FROM shopping_list ORDER BY id DESC` inside try/catch;
a failing query is rethrown as the sanitized message. -/
def ShoppingRepository.getAll (dbFails : Bool) (s : ShoppingTable) :
    Except String (List ShoppingRow) :=
  if dbFails then .error getAllFailMsg
  else .ok (sortDescBy ShoppingRow.id s.rows)

/-- Final-revision `ShoppingRepository.create`: runs the insert inside
try/catch with no precondition on its arguments; a failing insert is
rethrown as the sanitized message, otherwise the row is inserted. -/
def ShoppingRepository.create (dbFails : Bool) (s : ShoppingTable)
    (item quantity store now : String) : Except String ShoppingTable :=
  if dbFails then .error persistenceMsg
  else .ok (ShoppingRepository.createState s item quantity store now)

/-- Final-revision `ShoppingRepository.delete` inside try/catch. -/
def ShoppingRepository.delete (dbFails : Bool) (s : ShoppingTable) (id : Nat) :
    Except String ShoppingTable :=
  if dbFails then .error deleteFailMsg
  else .ok (ShoppingRepository.deleteState s id)

/-- Final-revision `ShoppingRepository.toggleCheck` inside try/catch. -/
def ShoppingRepository.toggleCheck (dbFails : Bool) (s : ShoppingTable) (id : Nat) :
    Except String ShoppingTable :=
  if dbFails then .error toggleFailMsg
  else .ok (ShoppingRepository.toggleCheckState s id)

/-- Earlier-revision `ShoppingRepository.create`, the revision that
validates quantity itself: when `quantity > 0` it runs the insert
inside try/catch, and otherwise it throws the validation message.  The
numeric comparison is modelled on integer quantities; the TEXT affinity
of the column stores the bound number as its decimal text. -/
def ShoppingRepository.createV1 (dbFails : Bool) (s : ShoppingTable)
    (item : String) (quantity : Int) (store now : String) :
    Except String ShoppingTable :=
  if 0 < quantity then
    if dbFails then .error persistenceMsg
    else .ok (ShoppingRepository.createState s item (toString quantity) store now)
  else .error validationMsg

/-- Embedding of `NoticeRepository.getAll`:
`SELECT * FROM notices ORDER BY id DESC` inside try/catch. -/
def NoticeRepository.getAll (dbFails : Bool) (s : NoticeTable) :
    Except String (List NoticeRow) :=
  if dbFails then .error "Failed to retrieve notices from database"
  else .ok (sortDescBy NoticeRow.id s.rows)

/-- The freshly initialized `shopping_list` table (empty; SQLite
`AUTOINCREMENT` starts at 1). -/
def ShoppingRepository.initialTable : ShoppingTable :=
  { rows := [], nextId := 1 }

/-- The `trim()` sanitizer: strip leading and trailing whitespace, as
JavaScript `String.prototype.trim` does. -/
def jsTrim (s : String) : String :=
  ⟨((s.data.dropWhile Char.isWhitespace).reverse.dropWhile Char.isWhitespace).reverse⟩

/-- Replacement of one character under the validator.js `escape`
sanitizer: ampersand, double quote, apostrophe, angle brackets, slash,
backslash and backtick become HTML entities. -/
def escapeChar (c : Char) : String :=
  if c = '&' then "&amp;"
  else if c = Char.ofNat 34 then "&quot;"
  else if c = Char.ofNat 39 then "&#x27;"
  else if c = '<' then "&lt;"
  else if c = '>' then "&gt;"
  else if c = '/' then "&#x2F;"
  else if c = Char.ofNat 92 then "&#x5C;"
  else if c = Char.ofNat 96 then "&#96;"
  else String.singleton c

/-- validator.js `escape` over a whole string. -/
def jsEscape (s : String) : String :=
  String.join (s.data.map escapeChar)

/-- Digit run to its value, `parseInt` style. -/
def digitsVal (cs : List Char) : Nat :=
  cs.foldl (fun n c => n * 10 + (c.toNat - 48)) 0

/-- validator.js `isInt` (default options: leading zeroes allowed):
the string matches `[+-]?[0-9]+` anchored, and its integer value is
returned; otherwise `none`. -/
def intLit (s : String) : Option Int :=
  match s.data with
  | [] => none
  | c :: cs =>
    if c = '+' then
      if !cs.isEmpty && cs.all Char.isDigit then some (digitsVal cs) else none
    else if c = '-' then
      if !cs.isEmpty && cs.all Char.isDigit then some (-(digitsVal cs : Int)) else none
    else
      if (c :: cs).all Char.isDigit then some (digitsVal (c :: cs)) else none

/-- The `isInt (min 1)` check of the quantity field: an integer
literal whose value is at least 1. -/
def isIntMin1 (s : String) : Bool :=
  match intLit s with
  | some n => decide (1 ≤ n)
  | none => false

/-- The body of a `POST /shopping-list/add` request. -/
structure AddRequest where
  item : String
  quantity : String
  store : String
deriving Repr, DecidableEq

/-- The response the `/add` handler produces: redirect to the listing
on success, status 400 with a JSON errors array on validation failure,
or the error forwarded to the centralized handler. -/
inductive AddResponse where
  | redirect (loc : String)
  | badRequest (fieldErrors : List String)
  | serverError (msg : String)
deriving Repr, DecidableEq

/-- HTTP status of each `/add` response shape (`res.redirect` defaults
to 302, `res.status(400).json`, centralized error handler 500). -/
def statusOf : AddResponse → Nat
  | .redirect _ => 302
  | .badRequest _ => 400
  | .serverError _ => 500

/-- Outcome of one `/add` request: the response, the table afterwards,
and whether `shoppingRepo.create` was called. -/
structure AddOutcome where
  response : AddResponse
  table : ShoppingTable
  createCalled : Bool
deriving Repr, DecidableEq

/-- The validation messages collected by the `/add` validator chains:
item is trimmed, escaped and must be non-empty; quantity is trimmed and
must be an integer of at least 1; store is trimmed, escaped and must be
non-empty. -/
def validateAdd (r : AddRequest) : List String :=
  (if (jsEscape (jsTrim r.item)).isEmpty then ["Item is required"] else []) ++
  (if isIntMin1 (jsTrim r.quantity) then [] else ["Quantity must be at least 1"]) ++
  (if (jsEscape (jsTrim r.store)).isEmpty then ["Store is required"] else [])

/-- The `POST /shopping-list/add` handler (final revision): if
`validationResult` is non-empty respond `400` with the errors and do
not call the repository; otherwise call `create` on the sanitized
fields and redirect, forwarding a repository error to `next`. -/
def postAdd (dbFails : Bool) (now : String) (s : ShoppingTable)
    (r : AddRequest) : AddOutcome :=
  let errs := validateAdd r
  if errs.isEmpty then
    match ShoppingRepository.create dbFails s
        (jsEscape (jsTrim r.item)) (jsTrim r.quantity) (jsEscape (jsTrim r.store)) now with
    | .ok s2 => { response := .redirect "/shopping-list", table := s2, createCalled := true }
    | .error m => { response := .serverError m, table := s, createCalled := true }
  else
    { response := .badRequest errs, table := s, createCalled := false }

/-- Which steps of the initialization in `data/database.js` succeed in
the environment: the data directory existing, `fs.mkdirSync`, opening
the `DatabaseSync`, and `db.exec` of the schema. -/
structure InitEnv where
  dataDirExists : Bool
  mkdirOk : Bool
  openOk : Bool
  execOk : Bool
deriving Repr, DecidableEq

/-- Which tables exist after initialization. -/
structure DbSchema where
  noticesTable : Bool
  shoppingListTable : Bool
deriving Repr, DecidableEq

/-- Result of running `data/database.js` at startup: a ready store, or
`process.exit(code)`. -/
inductive InitResult where
  | ready (schema : DbSchema)
  | exitProcess (code : Nat)
deriving Repr, DecidableEq

/-- The try/catch initialization block of `data/database.js`: ensure
the data directory, open the store file, execute
`CREATE TABLE IF NOT EXISTS notices ...; CREATE TABLE IF NOT EXISTS
shopping_list ...;`; any failure is caught and ends in
`process.exit(1)`. -/
def initDatabase (e : InitEnv) : InitResult :=
  if !e.dataDirExists && !e.mkdirOk then .exitProcess 1
  else if !e.openOk then .exitProcess 1
  else if !e.execOk then .exitProcess 1
  else .ready { noticesTable := true, shoppingListTable := true }

/-- The store states reachable through the operations of the shopping
repository from the freshly created table: `create`, `delete` and
`toggleCheck` (their successful executions; a failing execution leaves
the table untouched). -/
inductive Reachable : ShoppingTable → Prop where
  | init : Reachable ShoppingRepository.initialTable
  | createStep (s : ShoppingTable) (item quantity store now : String) :
      Reachable s → Reachable (ShoppingRepository.createState s item quantity store now)
  | deleteStep (s : ShoppingTable) (id : Nat) :
      Reachable s → Reachable (ShoppingRepository.deleteState s id)
  | toggleStep (s : ShoppingTable) (id : Nat) :
      Reachable s → Reachable (ShoppingRepository.toggleCheckState s id)

/-! ### Helper lemmas about the `ORDER BY id DESC` embedding -/

theorem sortDescBy_perm {α : Type} (key : α → Nat) (l : List α) :
    List.Perm (sortDescBy key l) l :=
  List.perm_insertionSort (keyGe key) l

theorem sortDescBy_sorted {α : Type} (key : α → Nat) (l : List α) :
    List.Sorted (keyGe key) (sortDescBy key l) :=
  List.sorted_insertionSort (keyGe key) l

/-- A row whose key strictly dominates the key of every other row comes
first in the descending sort. -/
theorem head?_sortDescBy_eq_of_max {α : Type} (key : α → Nat) (l : List α) (r : α)
    (hr : r ∈ l) (hmax : ∀ x ∈ l, x = r ∨ key x < key r) :
    (sortDescBy key l).head? = some r := by
  have hperm := sortDescBy_perm key l
  have hsorted := sortDescBy_sorted key l
  cases h : sortDescBy key l with
  | nil =>
    have : r ∈ sortDescBy key l := hperm.symm.subset hr
    rw [h] at this
    cases this
  | cons a t =>
    have ha : a ∈ l := hperm.subset (h ▸ List.mem_cons_self a t)
    rcases hmax a ha with heq | hlt
    · rw [heq]; rfl
    · have hrmem : r ∈ a :: t := h ▸ hperm.symm.subset hr
      rcases List.mem_cons.mp hrmem with heq2 | hmem
      · subst heq2; exact absurd hlt (lt_irrefl _)
      · have hs2 : List.Sorted (keyGe key) (a :: t) := h ▸ hsorted
        have hle : key r ≤ key a := (List.sorted_cons.mp hs2).1 r hmem
        omega

/-- With pairwise-distinct keys the descending sort is strictly
descending. -/
theorem pairwise_lt_sortDescBy {α : Type} (key : α → Nat) (l : List α)
    (hnd : (l.map key).Nodup) :
    (sortDescBy key l).Pairwise (fun a b => key b < key a) := by
  have hperm := sortDescBy_perm key l
  have hsorted : (sortDescBy key l).Pairwise (keyGe key) := sortDescBy_sorted key l
  have hnd2 : ((sortDescBy key l).map key).Nodup :=
    ((hperm.map key).nodup_iff).mpr hnd
  have hne : (sortDescBy key l).Pairwise (fun a b => key a ≠ key b) :=
    List.pairwise_map.mp hnd2
  exact (hsorted.and hne).imp
    (fun h => Nat.lt_of_le_of_ne h.1 (fun he => h.2 he.symm))

/-! ### The claims -/

/-- C1: for every valid input triple (item, quantity ≥ 1, store),
calling `create` and then `getAll` on the shopping repository (both with
the underlying statement executions succeeding) yields a sequence whose
first element has exactly the given item, quantity and store values and
has checked equal to false (stored as 0).  The `id`s of already-stored
rows are below the autoincrement counter, as `AUTOINCREMENT` guarantees. -/
theorem C1_create_then_getAll_first (s : ShoppingTable)
    (item quantity store now : String)
    (hids : ∀ r ∈ s.rows, r.id < s.nextId)
    (_hq : isIntMin1 quantity = true)
    (s2 : ShoppingTable) (l : List ShoppingRow)
    (hc : ShoppingRepository.create false s item quantity store now = Except.ok s2)
    (hg : ShoppingRepository.getAll false s2 = Except.ok l) :
    l.head? = some ({ id := s.nextId, item := item, quantity := quantity,
                      store := store, checked := 0, created_at := now }) := by
  have hs2 : s2 = ShoppingRepository.createState s item quantity store now := by
    have : Except.ok (ShoppingRepository.createState s item quantity store now) =
        (Except.ok s2 : Except String ShoppingTable) := hc
    injection this with h
    exact h.symm
  have hl : l = sortDescBy ShoppingRow.id s2.rows := by
    have : Except.ok (sortDescBy ShoppingRow.id s2.rows) =
        (Except.ok l : Except String (List ShoppingRow)) := hg
    injection this with h
    exact h.symm
  subst hs2
  subst hl
  apply head?_sortDescBy_eq_of_max
  · exact List.mem_append.mpr (Or.inr (List.mem_singleton.mpr rfl))
  · intro x hx
    rcases List.mem_append.mp hx with h1 | h2
    · exact Or.inr (hids x h1)
    · exact Or.inl (List.mem_singleton.mp h2)

/-- Witness for C1 at the empty initial table and the triple
(Bread, 2, Market). -/
theorem C1_create_then_getAll_first_witness :
    ([{ id := 1, item := "Bread", quantity := "2", store := "Market",
        checked := 0, created_at := "t" }] : List ShoppingRow).head? =
      some ({ id := 1, item := "Bread", quantity := "2", store := "Market",
              checked := 0, created_at := "t" }) :=
  C1_create_then_getAll_first ShoppingRepository.initialTable
    "Bread" "2" "Market" "t" (by decide) (by decide) _ _ rfl rfl

/-- C2: for every state of the store (ids are unique, as the
`INTEGER PRIMARY KEY` column guarantees), `getAll` on the notices
repository and `getAll` on the shopping repository each return the
stored rows ordered by strictly decreasing id (newest first). -/
theorem C2_getAll_strictly_descending (sh : ShoppingTable) (nt : NoticeTable)
    (lsh : List ShoppingRow) (lnt : List NoticeRow)
    (hsh : (sh.rows.map ShoppingRow.id).Nodup)
    (hnt : (nt.rows.map NoticeRow.id).Nodup)
    (hg1 : ShoppingRepository.getAll false sh = Except.ok lsh)
    (hg2 : NoticeRepository.getAll false nt = Except.ok lnt) :
    (List.Perm lsh sh.rows ∧ lsh.Pairwise (fun a b => b.id < a.id)) ∧
    (List.Perm lnt nt.rows ∧ lnt.Pairwise (fun a b => b.id < a.id)) := by
  have h1 : lsh = sortDescBy ShoppingRow.id sh.rows := by
    have : Except.ok (sortDescBy ShoppingRow.id sh.rows) =
        (Except.ok lsh : Except String (List ShoppingRow)) := hg1
    injection this with h
    exact h.symm
  have h2 : lnt = sortDescBy NoticeRow.id nt.rows := by
    have : Except.ok (sortDescBy NoticeRow.id nt.rows) =
        (Except.ok lnt : Except String (List NoticeRow)) := hg2
    injection this with h
    exact h.symm
  subst h1
  subst h2
  exact ⟨⟨sortDescBy_perm _ _, pairwise_lt_sortDescBy _ _ hsh⟩,
         ⟨sortDescBy_perm _ _, pairwise_lt_sortDescBy _ _ hnt⟩⟩

/-- Witness for C2 at a two-row shopping table and a one-row notices
table. -/
theorem C2_getAll_strictly_descending_witness :
    (List.Perm
        [({ id := 2, item := "Milk", quantity := "1", store := "Shop",
            checked := 1, created_at := "t2" } : ShoppingRow),
         { id := 1, item := "Bread", quantity := "2", store := "Market",
           checked := 0, created_at := "t1" }]
        [({ id := 1, item := "Bread", quantity := "2", store := "Market",
            checked := 0, created_at := "t1" } : ShoppingRow),
         { id := 2, item := "Milk", quantity := "1", store := "Shop",
           checked := 1, created_at := "t2" }] ∧
      List.Pairwise (fun (a b : ShoppingRow) => b.id < a.id)
        [({ id := 2, item := "Milk", quantity := "1", store := "Shop",
            checked := 1, created_at := "t2" } : ShoppingRow),
         { id := 1, item := "Bread", quantity := "2", store := "Market",
           checked := 0, created_at := "t1" }]) ∧
    (List.Perm
        [({ id := 1, name := "Alice", message := "Milk is out",
            created_at := "t1" } : NoticeRow)]
        [({ id := 1, name := "Alice", message := "Milk is out",
            created_at := "t1" } : NoticeRow)] ∧
      List.Pairwise (fun (a b : NoticeRow) => b.id < a.id)
        [({ id := 1, name := "Alice", message := "Milk is out",
            created_at := "t1" } : NoticeRow)]) :=
  C2_getAll_strictly_descending
    { rows := [{ id := 1, item := "Bread", quantity := "2", store := "Market",
                 checked := 0, created_at := "t1" },
               { id := 2, item := "Milk", quantity := "1", store := "Shop",
                 checked := 1, created_at := "t2" }], nextId := 3 }
    { rows := [{ id := 1, name := "Alice", message := "Milk is out",
                 created_at := "t1" }], nextId := 2 }
    _ _ (by decide) (by decide) rfl rfl

/-- Toggling a row twice restores it: `1 - (1 - checked) = checked`. -/
theorem toggleRow_toggleRow (id : Nat) (r : ShoppingRow) :
    toggleRow id (toggleRow id r) = r := by
  cases r with
  | mk i it q st c ca =>
    unfold toggleRow
    by_cases h : i = id
    · subst h
      simp [Int.sub_sub_self]
    · simp [h]

/-- Mapping the toggle over the rows twice restores the list. -/
theorem map_toggleRow_twice (id : Nat) :
    ∀ l : List ShoppingRow, (l.map (toggleRow id)).map (toggleRow id) = l
  | [] => rfl
  | r :: rs => by
    simp only [List.map_cons, toggleRow_toggleRow, map_toggleRow_twice id rs]

/-- The state effect of the toggle is an involution. -/
theorem toggleCheckState_involutive (s : ShoppingTable) (id : Nat) :
    ShoppingRepository.toggleCheckState (ShoppingRepository.toggleCheckState s id) id = s := by
  cases s with
  | mk rows nextId =>
    simp only [ShoppingRepository.toggleCheckState, map_toggleRow_twice]

/-- C3: for every id (in particular every id of an existing shopping
row), applying `toggleCheck(id)` twice in succession restores the
table, so the checked field of the row equals its original value. -/
theorem C3_toggleCheck_involution (s : ShoppingTable) (id : Nat) :
    (ShoppingRepository.toggleCheck false s id).bind
      (fun s2 => ShoppingRepository.toggleCheck false s2 id) = Except.ok s := by
  show Except.ok
      (ShoppingRepository.toggleCheckState (ShoppingRepository.toggleCheckState s id) id) =
    Except.ok s
  rw [toggleCheckState_involutive]

/-- Filtering away an id that no row has keeps every row. -/
theorem filter_ne_id_eq_self (id : Nat) :
    ∀ l : List ShoppingRow, (∀ r ∈ l, r.id ≠ id) →
      l.filter (fun r => r.id != id) = l
  | [], _ => rfl
  | r :: rs, h => by
    have h1 : r.id ≠ id := h r (List.mem_cons_self r rs)
    have hrec := filter_ne_id_eq_self id rs
      (fun x hx => h x (List.mem_cons_of_mem r hx))
    simp [List.filter_cons, h1, hrec]

/-- Toggling an id that no row has keeps every row. -/
theorem map_toggleRow_eq_self (id : Nat) :
    ∀ l : List ShoppingRow, (∀ r ∈ l, r.id ≠ id) →
      l.map (toggleRow id) = l
  | [], _ => rfl
  | r :: rs, h => by
    have h1 : r.id ≠ id := h r (List.mem_cons_self r rs)
    have hrec := map_toggleRow_eq_self id rs
      (fun x hx => h x (List.mem_cons_of_mem r hx))
    simp [toggleRow, h1, hrec]

/-- C4: for every id that matches no stored shopping row, `delete(id)`
and `toggleCheck(id)` (with the underlying statement execution
succeeding, as it does for a no-match id) do not raise an error and
leave the table exactly as it was, so a subsequent `getAll` returns the
same sequence as before the call. -/
theorem C4_missing_id_noop (s : ShoppingTable) (id : Nat)
    (h : ∀ r ∈ s.rows, r.id ≠ id) :
    ShoppingRepository.delete false s id = Except.ok s ∧
    ShoppingRepository.toggleCheck false s id = Except.ok s := by
  constructor
  · show Except.ok (ShoppingRepository.deleteState s id) = Except.ok s
    cases s with
    | mk rows nextId =>
      simp only [ShoppingRepository.deleteState]
      rw [filter_ne_id_eq_self id rows h]
  · show Except.ok (ShoppingRepository.toggleCheckState s id) = Except.ok s
    cases s with
    | mk rows nextId =>
      simp only [ShoppingRepository.toggleCheckState]
      rw [map_toggleRow_eq_self id rows h]

/-- Witness for C4: deleting or toggling id 5 in a one-row table whose
only row has id 1. -/
theorem C4_missing_id_noop_witness :
    ShoppingRepository.delete false
      { rows := [{ id := 1, item := "Bread", quantity := "2", store := "Market",
                   checked := 0, created_at := "t1" }], nextId := 2 } 5 =
      Except.ok { rows := [{ id := 1, item := "Bread", quantity := "2",
                             store := "Market", checked := 0, created_at := "t1" }],
                  nextId := 2 } ∧
    ShoppingRepository.toggleCheck false
      { rows := [{ id := 1, item := "Bread", quantity := "2", store := "Market",
                   checked := 0, created_at := "t1" }], nextId := 2 } 5 =
      Except.ok { rows := [{ id := 1, item := "Bread", quantity := "2",
                             store := "Market", checked := 0, created_at := "t1" }],
                  nextId := 2 } :=
  C4_missing_id_noop
    { rows := [{ id := 1, item := "Bread", quantity := "2", store := "Market",
                 checked := 0, created_at := "t1" }], nextId := 2 } 5
    (by decide)

/-- C5: every `POST /shopping-list/add` request whose quantity field is
"0" (after the `trim` sanitizer) or non-numeric text (no integer
literal) is answered with status 400 and the list of per-field
validation messages, the `create` of the repository is not called, and no
row is inserted. -/
theorem C5_invalid_quantity_rejected (dbFails : Bool) (now : String)
    (s : ShoppingTable) (r : AddRequest)
    (h : jsTrim r.quantity = "0" ∨ intLit (jsTrim r.quantity) = none) :
    statusOf (postAdd dbFails now s r).response = 400 ∧
    (postAdd dbFails now s r).response = AddResponse.badRequest (validateAdd r) ∧
    validateAdd r ≠ [] ∧
    (postAdd dbFails now s r).createCalled = false ∧
    (postAdd dbFails now s r).table = s := by
  have hq : isIntMin1 (jsTrim r.quantity) = false := by
    rcases h with h | h
    · rw [h]; decide
    · unfold isIntMin1
      rw [h]
  have hmem : "Quantity must be at least 1" ∈ validateAdd r := by
    unfold validateAdd
    rw [hq]
    simp
  have hne : validateAdd r ≠ [] := List.ne_nil_of_mem hmem
  have hemp : (validateAdd r).isEmpty = false := by
    cases hval : validateAdd r with
    | nil => exact absurd hval hne
    | cons a l => rfl
  refine ⟨?_, ?_, hne, ?_, ?_⟩ <;> simp [postAdd, hemp, statusOf]

/-- Witness for C5: quantity "0" on the empty table. -/
theorem C5_invalid_quantity_rejected_witness :
    statusOf (postAdd false "t" ShoppingRepository.initialTable
      { item := "Bread", quantity := "0", store := "Market" }).response = 400 ∧
    (postAdd false "t" ShoppingRepository.initialTable
      { item := "Bread", quantity := "0", store := "Market" }).response =
      AddResponse.badRequest (validateAdd
        { item := "Bread", quantity := "0", store := "Market" }) ∧
    (postAdd false "t" ShoppingRepository.initialTable
      { item := "Bread", quantity := "0", store := "Market" }).createCalled = false ∧
    (postAdd false "t" ShoppingRepository.initialTable
      { item := "Bread", quantity := "0", store := "Market" }).table =
      ShoppingRepository.initialTable := by
  have h := C5_invalid_quantity_rejected false "t" ShoppingRepository.initialTable
    { item := "Bread", quantity := "0", store := "Market" } (Or.inl (by decide))
  exact ⟨h.1, h.2.1, h.2.2.2.1, h.2.2.2.2⟩

/-- C6: in the repository revision that enforces the quantity
precondition itself, `create` with quantity ≤ 0 fails with the
validation error, which is distinct from the persistence error raised
on underlying store-execution failure, and inserts no row (the call
returns no new table state). -/
theorem C6_createV1_quantity_validation (dbFails : Bool) (s : ShoppingTable)
    (item : String) (quantity : Int) (store now : String)
    (h : quantity ≤ 0) :
    ShoppingRepository.createV1 dbFails s item quantity store now =
      Except.error validationMsg ∧
    validationMsg ≠ persistenceMsg := by
  refine ⟨?_, by decide⟩
  unfold ShoppingRepository.createV1
  rw [if_neg (by omega)]

/-- Witness for C6 at quantity 0. -/
theorem C6_createV1_quantity_validation_witness :
    ShoppingRepository.createV1 false ShoppingRepository.initialTable
      "Bread" 0 "Market" "t" = Except.error validationMsg :=
  (C6_createV1_quantity_validation false ShoppingRepository.initialTable
    "Bread" 0 "Market" "t" (by decide)).1

/-- C7: if any step of the initialization of the persistence adapter fails
(for example the data directory is unwritable), the process exits with
a non-zero status; on success both resource tables exist before any
repository call. -/
theorem C7_init_fail_fast_or_tables (e : InitEnv) :
    (∀ c, initDatabase e = InitResult.exitProcess c → 0 < c) ∧
    (∀ sch, initDatabase e = InitResult.ready sch →
      sch.noticesTable = true ∧ sch.shoppingListTable = true) := by
  constructor
  · intro c hc
    unfold initDatabase at hc
    split_ifs at hc
    all_goals (cases hc; exact Nat.zero_lt_one)
  · intro sch hs
    unfold initDatabase at hs
    split_ifs at hs
    all_goals (cases hs; exact ⟨rfl, rfl⟩)

/-- Witness for C7: an environment whose store file cannot be opened
exits with status 1, which is positive; a fully healthy environment
yields both tables. -/
theorem C7_init_fail_fast_or_tables_witness :
    (0 : Nat) < 1 ∧ (true = true ∧ true = true) :=
  ⟨(C7_init_fail_fast_or_tables
      { dataDirExists := true, mkdirOk := true, openOk := false, execOk := true }).1
        1 rfl,
   (C7_init_fail_fast_or_tables
      { dataDirExists := true, mkdirOk := true, openOk := true, execOk := true }).2
        { noticesTable := true, shoppingListTable := true } rfl⟩

/-- C8: `toggleCheck(id)` modifies at most the checked field of the row
whose id matches: it keeps the autoincrement counter and the number of
rows, and positionally every row keeps its id, item, quantity, store
and created_at, while checked is kept whenever the id of the row differs
from the given one. -/
theorem C8_toggleCheck_frame (s : ShoppingTable) (id : Nat) :
    (ShoppingRepository.toggleCheckState s id).nextId = s.nextId ∧
    (ShoppingRepository.toggleCheckState s id).rows.length = s.rows.length ∧
    ∀ (i : Nat) (r r2 : ShoppingRow), s.rows[i]? = some r →
      (ShoppingRepository.toggleCheckState s id).rows[i]? = some r2 →
      r2.id = r.id ∧ r2.item = r.item ∧ r2.quantity = r.quantity ∧
      r2.store = r.store ∧ r2.created_at = r.created_at ∧
      (r.id ≠ id → r2.checked = r.checked) := by
  refine ⟨rfl, by simp [ShoppingRepository.toggleCheckState], ?_⟩
  intro i r r2 h1 h2
  have hmap : (ShoppingRepository.toggleCheckState s id).rows[i]? =
      some (toggleRow id r) := by
    simp [ShoppingRepository.toggleCheckState, h1]
  rw [hmap] at h2
  injection h2 with h2
  subst h2
  unfold toggleRow
  by_cases hcase : r.id = id
  · rw [if_pos hcase]
    exact ⟨rfl, rfl, rfl, rfl, rfl, fun hne => absurd hcase hne⟩
  · rw [if_neg hcase]
    exact ⟨rfl, rfl, rfl, rfl, rfl, fun _ => rfl⟩

/-- Witness for C8: toggling id 1 in a two-row table leaves the row
with id 2 entirely unchanged (position 1). -/
theorem C8_toggleCheck_frame_witness :
    (ShoppingRepository.toggleCheckState
      { rows := [{ id := 1, item := "Bread", quantity := "2", store := "Market",
                   checked := 0, created_at := "t1" },
                 { id := 2, item := "Milk", quantity := "1", store := "Shop",
                   checked := 1, created_at := "t2" }], nextId := 3 } 1).nextId = 3 ∧
    ((2 : Nat) = 2 ∧ "Milk" = "Milk" ∧ "1" = "1" ∧ "Shop" = "Shop" ∧
      "t2" = "t2" ∧ (1 : Int) = 1) :=
  ⟨(C8_toggleCheck_frame
      { rows := [{ id := 1, item := "Bread", quantity := "2", store := "Market",
                   checked := 0, created_at := "t1" },
                 { id := 2, item := "Milk", quantity := "1", store := "Shop",
                   checked := 1, created_at := "t2" }], nextId := 3 } 1).1,
   (by
      have h := (C8_toggleCheck_frame
        { rows := [{ id := 1, item := "Bread", quantity := "2", store := "Market",
                     checked := 0, created_at := "t1" },
                   { id := 2, item := "Milk", quantity := "1", store := "Shop",
                     checked := 1, created_at := "t2" }], nextId := 3 } 1).2.2 1
        { id := 2, item := "Milk", quantity := "1", store := "Shop",
          checked := 1, created_at := "t2" }
        { id := 2, item := "Milk", quantity := "1", store := "Shop",
          checked := 1, created_at := "t2" } rfl rfl
      exact ⟨h.1, h.2.1, h.2.2.1, h.2.2.2.1, h.2.2.2.2.1,
             h.2.2.2.2.2 (by decide)⟩)⟩

/-- C9: in every store state reachable through the shopping
repository operations (`create`, `delete`, `toggleCheck`), the
checked field of every `shopping_list` row is either 0 or 1: `create`
inserts rows with checked = 0, `toggleCheck` maps 0 to 1 and 1 to 0 via
`checked = 1 - checked`, and `delete` only removes rows. -/
theorem C9_checked_zero_or_one (s : ShoppingTable) (hs : Reachable s) :
    ∀ r ∈ s.rows, r.checked = 0 ∨ r.checked = 1 := by
  induction hs with
  | init =>
    intro r hr
    cases hr
  | createStep s item quantity store now _ ih =>
    intro r hr
    rcases List.mem_append.mp hr with h1 | h2
    · exact ih r h1
    · rw [List.mem_singleton.mp h2]
      exact Or.inl rfl
  | deleteStep s id _ ih =>
    intro r hr
    exact ih r (List.mem_of_mem_filter hr)
  | toggleStep s id _ ih =>
    intro r hr
    rcases List.mem_map.mp hr with ⟨x, hx, hxr⟩
    rw [← hxr]
    unfold toggleRow
    by_cases hc : x.id = id
    · rw [if_pos hc]
      rcases ih x hx with h0 | h1
      · exact Or.inr (by rw [h0]; rfl)
      · exact Or.inl (by rw [h1]; rfl)
    · rw [if_neg hc]
      exact ih x hx

/-- Witness for C9: the state after one create from the initial table. -/
theorem C9_checked_zero_or_one_witness :
    ({ id := 1, item := "Bread", quantity := "2", store := "Market",
       checked := 0, created_at := "t" } : ShoppingRow).checked = 0 ∨
    ({ id := 1, item := "Bread", quantity := "2", store := "Market",
       checked := 0, created_at := "t" } : ShoppingRow).checked = 1 :=
  C9_checked_zero_or_one
    (ShoppingRepository.createState ShoppingRepository.initialTable
      "Bread" "2" "Market" "t")
    (Reachable.createStep ShoppingRepository.initialTable
      "Bread" "2" "Market" "t" Reachable.init)
    { id := 1, item := "Bread", quantity := "2", store := "Market",
      checked := 0, created_at := "t" }
    (by decide)

/-- C10: the `create` of the final-revision shopping repository enforces no
precondition on its arguments: whether it raises depends only on the
underlying execution, never on the inputs — for every string triple
(item, quantity, store), including quantity "0", a negative number or
non-numeric text, a successful execution inserts a row with exactly
those values and checked = 0 and does not raise, and a failing
execution raises the persistence message regardless of the inputs. -/
theorem C10_create_no_precondition (s : ShoppingTable)
    (item quantity store now : String) :
    ShoppingRepository.create true s item quantity store now =
      Except.error persistenceMsg ∧
    ShoppingRepository.create false s item quantity store now =
      Except.ok
        { rows := s.rows ++
            [{ id := s.nextId, item := item, quantity := quantity,
               store := store, checked := 0, created_at := now }],
          nextId := s.nextId + 1 } :=
  ⟨rfl, rfl⟩
